import Mathlib

/-!
A shallow embedding of the StargazingMCP services: the stargazing weather
assessor (`weather_service.py`), the viewing-window selector
(`astro_service.py`) and the nearby-city lookup (`indian_locations.py`),
with theorems settling the spec's claims about them.
Python numeric values are modelled as rationals; the integer score as `ℤ`.
-/

namespace Stargazing

/-- The numeric fields of `weather_data["current"]` that
`get_stargazing_weather_assessment` reads (after defaults are applied). -/
structure Current where
  clouds : ℚ
  humidity : ℚ
  wind_speed : ℚ
  visibility : ℚ
  rain : ℚ
deriving DecidableEq, Repr

/-- The score computation of `get_stargazing_weather_assessment`
(weather_service.py lines 166-201): start at 100 and apply the first
matching bracket of each factor in sequence. -/
def rawScore (c : Current) : ℤ :=
  let score : ℤ := 100
  -- Cloud impact (most important)
  let score := if c.clouds > 80 then score - 50
    else if c.clouds > 60 then score - 30
    else if c.clouds > 40 then score - 20
    else if c.clouds > 20 then score - 10
    else score
  -- Humidity impact
  let score := if c.humidity > 90 then score - 15
    else if c.humidity > 80 then score - 10
    else if c.humidity > 70 then score - 5
    else score
  -- Rain impact
  let score := if c.rain > 0 then score - 40 else score
  -- Visibility impact
  let score := if c.visibility < 5 then score - 20
    else if c.visibility < 8 then score - 10
    else score
  -- Wind impact (positive for clearing atmosphere)
  let score := if c.wind_speed > 15 then score - 10
    else if 5 ≤ c.wind_speed ∧ c.wind_speed ≤ 15 then score + 5
    else score
  score

/-- Per-factor adjustment for clouds, as the spec phrases it (highest
matching bracket wins). -/
def cloudAdj (clouds : ℚ) : ℤ :=
  if clouds > 80 then -50
  else if clouds > 60 then -30
  else if clouds > 40 then -20
  else if clouds > 20 then -10
  else 0

/-- Per-factor adjustment for humidity, as the spec phrases it. -/
def humidityAdj (humidity : ℚ) : ℤ :=
  if humidity > 90 then -15
  else if humidity > 80 then -10
  else if humidity > 70 then -5
  else 0

/-- Per-factor adjustment for rain, as the spec phrases it. -/
def rainAdj (rain : ℚ) : ℤ := if rain > 0 then -40 else 0

/-- Per-factor adjustment for visibility, as the spec phrases it. -/
def visAdj (visibility : ℚ) : ℤ :=
  if visibility < 5 then -20
  else if visibility < 8 then -10
  else 0

/-- Per-factor adjustment for wind, as the spec phrases it. -/
def windAdj (wind : ℚ) : ℤ :=
  if wind > 15 then -10
  else if 5 ≤ wind ∧ wind ≤ 15 then 5
  else 0

/-- The spec's formula: 100 plus the sum of the per-factor adjustments. -/
def specRawScore (c : Current) : ℤ :=
  100 + cloudAdj c.clouds + humidityAdj c.humidity + rainAdj c.rain
    + visAdj c.visibility + windAdj c.wind_speed

/-- The rating/emoji selection of weather_service.py lines 203-215,
applied to the (unclamped) score. -/
def determineRating (score : ℤ) : String × String :=
  if score ≥ 80 then ("Excellent", "🌟")
  else if score ≥ 65 then ("Good", "⭐")
  else if score ≥ 45 then ("Fair", "☁️")
  else ("Poor", "🌧️")

/-- The function `_get_weather_recommendation` (weather_service.py
lines 234-243). -/
def recommendationOf (score : ℤ) : String :=
  if score ≥ 80 then "🌟 Perfect conditions for stargazing! Clear skies and excellent visibility."
  else if score ≥ 65 then "⭐ Good stargazing weather. Some clouds but should have clear patches."
  else if score ≥ 45 then "☁️ Fair conditions. Wait for cloud breaks or focus on bright objects."
  else "🌧️ Poor conditions for stargazing. Plan for another night."

/-- The "factors" block of the assessment (weather_service.py lines 221-227). -/
structure Factors where
  cloud_cover : String
  humidity : String
  visibility : String
  wind_speed : String
  precipitation : String
deriving DecidableEq, Repr

/-- Builds the "factors" strings from the reading. -/
def factorsOf (c : Current) : Factors :=
  { cloud_cover := toString c.clouds ++ "%"
  , humidity := toString c.humidity ++ "%"
  , visibility := toString c.visibility ++ "km"
  , wind_speed := toString c.wind_speed ++ "km/h"
  , precipitation := if c.rain > 0 then "Yes" else "No" }

/-- The dictionary `get_stargazing_weather_assessment` returns. -/
structure Assessment where
  score : ℤ
  rating : String
  emoji : String
  factors : Factors
  recommendation : String
deriving DecidableEq, Repr

/-- The assessment built from a fully-defaulted reading: the clamped score,
the rating and emoji from the raw score, the factor strings and the
recommendation (weather_service.py lines 166-229). -/
def assess (c : Current) : Assessment :=
  let score := rawScore c
  let r := determineRating score
  { score := max 0 (min 100 score)
  , rating := r.1
  , emoji := r.2
  , factors := factorsOf c
  , recommendation := recommendationOf score }

/-- The dictionary under the "current" key as received: each field may be
absent. -/
structure CurrentDict where
  clouds : Option ℚ
  humidity : Option ℚ
  wind_speed : Option ℚ
  visibility : Option ℚ
  rain : Option ℚ
deriving DecidableEq, Repr

/-- The whole `weather_data` argument: `current` itself may be absent. -/
structure WeatherData where
  current : Option CurrentDict
deriving DecidableEq, Repr

/-- The empty-dictionary Python default for a missing `current` key. -/
def emptyCurrentDict : CurrentDict := ⟨none, none, none, none, none⟩

/-- The `.get(key, default)` extraction of weather_service.py lines 160-164:
clouds default 50, humidity 60, wind_speed 5, visibility 10, rain 0. -/
def readCurrent (d : CurrentDict) : Current :=
  { clouds := d.clouds.getD 50
  , humidity := d.humidity.getD 60
  , wind_speed := d.wind_speed.getD 5
  , visibility := d.visibility.getD 10
  , rain := d.rain.getD 0 }

/-- The function `get_stargazing_weather_assessment` (weather_service.py
lines 155-232):
with numeric present fields the try-body is total, so the except branch
(modelled as `Except.error`) is never taken. -/
def get_stargazing_weather_assessment (w : WeatherData) : Except String Assessment :=
  Except.ok (assess (readCurrent (w.current.getD emptyCurrentDict)))

/-! ## astro_service.py: the viewing-window selector -/

/-- One entry of the `best_times` list built by `get_best_viewing_times`
(astro_service.py lines 143-159). -/
structure ViewingWindow where
  period : String
  start_time : String
  end_time : String
  quality : String
  descr : String
deriving DecidableEq, Repr

/-- The overall viewing-quality label of astro_service.py lines 131-137:
start from "Excellent" and override by the first matching cloud bracket. -/
def viewingQuality (cloud_cover : ℚ) : String :=
  if cloud_cover > 70 then "Poor"
  else if cloud_cover > 40 then "Fair"
  else if cloud_cover > 20 then "Good"
  else "Excellent"

/-- The quality label as a function of the whole reading: the code reads
only `clouds` for it. -/
def viewingQualityOf (c : Current) : String := viewingQuality c.clouds

/-- Fixed description of the Evening window (astro_service.py line 148). -/
def eveningDescr : String :=
  "Best for planetary observation and bright deep-sky objects"

/-- Fixed description of the Late Night window (astro_service.py line 158). -/
def lateNightDescr : String :=
  "Dark skies perfect for faint galaxies and nebulae"

/-- The `best_times` list of `get_best_viewing_times` (astro_service.py
lines 140-159): always an Evening window from `sunset` to "23:00";
a Late Night window from `moonset` to "04:00" when `moonset` is truthy
(non-empty) and lexicographically below "02:00", with quality upgraded to
"Excellent" when cloud cover is below 30. -/
def get_best_viewing_times (sunset moonset : String) (cloud_cover : ℚ) :
    List ViewingWindow :=
  let viewing_quality := viewingQuality cloud_cover
  let best_times : List ViewingWindow :=
    [⟨"Evening", sunset, "23:00", viewing_quality, eveningDescr⟩]
  if moonset ≠ "" ∧ moonset < "02:00" then
    best_times ++
      [⟨"Late Night", moonset, "04:00",
        if cloud_cover < 30 then "Excellent" else viewing_quality,
        lateNightDescr⟩]
  else best_times

/-! ## indian_locations.py: the city table and `find_nearby_cities` -/

/-- One row of the `INDIAN_CITIES` table (indian_locations.py lines 5-33). -/
structure CityInfo where
  lat : ℚ
  lon : ℚ
  state : String
deriving DecidableEq, Repr

/-- The table `INDIAN_CITIES` (indian_locations.py lines 5-33), keyed by
city name;
coordinates as written in the source. -/
def INDIAN_CITIES : List (String × CityInfo) :=
  [ ("delhi", ⟨28.6139, 77.2090, "Delhi"⟩)
  , ("mumbai", ⟨19.0760, 72.8777, "Maharashtra"⟩)
  , ("bangalore", ⟨12.9716, 77.5946, "Karnataka"⟩)
  , ("kolkata", ⟨22.5726, 88.3639, "West Bengal"⟩)
  , ("chennai", ⟨13.0827, 80.2707, "Tamil Nadu"⟩)
  , ("hyderabad", ⟨17.3850, 78.4867, "Telangana"⟩)
  , ("pune", ⟨18.5204, 73.8567, "Maharashtra"⟩)
  , ("ahmedabad", ⟨23.0225, 72.5714, "Gujarat"⟩)
  , ("jaipur", ⟨26.9124, 75.7873, "Rajasthan"⟩)
  , ("udaipur", ⟨24.5854, 73.7125, "Rajasthan"⟩)
  , ("manali", ⟨32.2432, 77.1892, "Himachal Pradesh"⟩)
  , ("rishikesh", ⟨30.0869, 78.2676, "Uttarakhand"⟩)
  , ("ooty", ⟨11.4064, 76.6932, "Tamil Nadu"⟩)
  , ("goa", ⟨15.2993, 74.1240, "Goa"⟩)
  , ("darjeeling", ⟨27.0410, 88.2663, "West Bengal"⟩)
  , ("shimla", ⟨31.1048, 77.1734, "Himachal Pradesh"⟩)
  , ("coorg", ⟨12.3375, 75.8069, "Karnataka"⟩)
  , ("mount_abu", ⟨24.5925, 72.7156, "Rajasthan"⟩)
  , ("lucknow", ⟨28.5355, 77.3910, "Uttar Pradesh"⟩)
  , ("bhopal", ⟨23.2599, 77.4126, "Madhya Pradesh"⟩)
  , ("chandigarh", ⟨30.7333, 76.7794, "Chandigarh"⟩)
  , ("thiruvananthapuram", ⟨8.5241, 76.9366, "Kerala"⟩) ]

/-- A value of one component of a `(city, info, distance)` Python tuple. -/
inductive PyVal where
  | str (s : String)
  | info (i : CityInfo)
  | rat (q : ℚ)
deriving DecidableEq, Repr

/-- A nearby entry as the Python 3-tuple `(city, info, distance)`, kept as
a positional sequence so out-of-range indexing is expressible. -/
def nearbyTuple (city : String) (i : CityInfo) (d : ℚ) : List PyVal :=
  [PyVal.str city, PyVal.info i, PyVal.rat d]

/-- Python's `<` on the sort keys, specialised to the values the key can
yield (distances). -/
def pyValLt : PyVal → PyVal → Bool
  | PyVal.rat a, PyVal.rat b => a < b
  | _, _ => false

/-- Python's `sorted(xs, key=f)`: the key is computed for every element
before comparison, so one out-of-range index (key = `none`) raises
IndexError even when the list needs no comparisons at all. -/
def pySortedByKey (key : List PyVal → Option PyVal) (xs : List (List PyVal)) :
    Except String (List (List PyVal)) :=
  if xs.all (fun x => (key x).isSome) then
    Except.ok (xs.mergeSort (fun a b => !pyValLt ((key b).getD (PyVal.rat 0))
      ((key a).getD (PyVal.rat 0))))
  else Except.error "IndexError"

/-- The function `find_nearby_cities` (indian_locations.py lines 40-59),
with the
float Haversine computation abstracted into the per-city distance map
`dist` (the claim settled against this definition does not depend on the
numeric values of the distances): filter the table by `distance <= radius`,
build `(city, info, distance)` tuples and sort them with the source's key
`lambda x: x[12]`, which indexes position 12 of a 3-tuple. -/
def find_nearby_cities (dist : String → ℚ) (radius_km : ℚ) :
    Except String (List (List PyVal)) :=
  let nearby := (INDIAN_CITIES.filter (fun ci => dist ci.1 ≤ radius_km)).map
    (fun ci => nearbyTuple ci.1 ci.2 (dist ci.1))
  pySortedByKey (fun x => x.get? 12) nearby

/-! ## Mock data -/

/-- The `current` block of `_get_mock_weather_data`
(weather_service.py lines 137-153). -/
structure MockCurrent where
  temperature : ℚ
  humidity : ℚ
  pressure : ℚ
  clouds : ℚ
  visibility : ℚ
  wind_speed : ℚ
  rain : ℚ
deriving DecidableEq, Repr

/-- The static mock fallback reading (weather_service.py lines 142-151). -/
def mock_weather_current : MockCurrent :=
  { temperature := 25, humidity := 65, pressure := 1013
  , clouds := 20, visibility := 10, wind_speed := 5, rain := 0 }

/-- The fields of the mock reading the assessor consumes. -/
def MockCurrent.toCurrent (m : MockCurrent) : Current :=
  ⟨m.clouds, m.humidity, m.wind_speed, m.visibility, m.rain⟩

/-! ## Helper lemmas -/

theorem cloud_step (s : ℤ) (x : ℚ) :
    (if x > 80 then s - 50 else if x > 60 then s - 30 else if x > 40 then s - 20
      else if x > 20 then s - 10 else s) = s + cloudAdj x := by
  unfold cloudAdj; split_ifs <;> omega

theorem humidity_step (s : ℤ) (x : ℚ) :
    (if x > 90 then s - 15 else if x > 80 then s - 10 else if x > 70 then s - 5
      else s) = s + humidityAdj x := by
  unfold humidityAdj; split_ifs <;> omega

theorem rain_step (s : ℤ) (x : ℚ) :
    (if x > 0 then s - 40 else s) = s + rainAdj x := by
  unfold rainAdj; split_ifs <;> omega

theorem vis_step (s : ℤ) (x : ℚ) :
    (if x < 5 then s - 20 else if x < 8 then s - 10 else s) = s + visAdj x := by
  unfold visAdj; split_ifs <;> omega

theorem wind_step (s : ℤ) (x : ℚ) :
    (if x > 15 then s - 10 else if 5 ≤ x ∧ x ≤ 15 then s + 5 else s)
      = s + windAdj x := by
  unfold windAdj; split_ifs <;> omega

/-- The sequential score computation equals 100 plus the per-factor
adjustments. -/
theorem rawScore_eq_spec (c : Current) : rawScore c = specRawScore c := by
  simp only [rawScore, specRawScore]
  rw [wind_step, vis_step, rain_step, humidity_step, cloud_step]

theorem cloudAdj_bounds (x : ℚ) : -50 ≤ cloudAdj x ∧ cloudAdj x ≤ 0 := by
  unfold cloudAdj; split_ifs <;> omega

theorem humidityAdj_bounds (x : ℚ) : -15 ≤ humidityAdj x ∧ humidityAdj x ≤ 0 := by
  unfold humidityAdj; split_ifs <;> omega

theorem rainAdj_bounds (x : ℚ) : -40 ≤ rainAdj x ∧ rainAdj x ≤ 0 := by
  unfold rainAdj; split_ifs <;> omega

theorem visAdj_bounds (x : ℚ) : -20 ≤ visAdj x ∧ visAdj x ≤ 0 := by
  unfold visAdj; split_ifs <;> omega

theorem windAdj_bounds (x : ℚ) : -10 ≤ windAdj x ∧ windAdj x ≤ 5 := by
  unfold windAdj; split_ifs <;> omega

/-- The raw (unclamped) score always lies in [-35, 105]. -/
theorem rawScore_bounds (c : Current) : -35 ≤ rawScore c ∧ rawScore c ≤ 105 := by
  rw [rawScore_eq_spec]; unfold specRawScore
  have h1 := cloudAdj_bounds c.clouds
  have h2 := humidityAdj_bounds c.humidity
  have h3 := rainAdj_bounds c.rain
  have h4 := visAdj_bounds c.visibility
  have h5 := windAdj_bounds c.wind_speed
  omega

/-! ## The claims -/

/-- C1: for every reading, the assessor's score is the clamp to [0, 100] of
100 plus the sum of the per-factor adjustments, each factor contributing
exactly its highest matching bracket. -/
theorem assess_score_eq_clamped_bracket_sum (c : Current) :
    (assess c).score =
      max 0 (min 100 (100 + cloudAdj c.clouds + humidityAdj c.humidity
        + rainAdj c.rain + visAdj c.visibility + windAdj c.wind_speed)) := by
  have h : rawScore c = 100 + cloudAdj c.clouds + humidityAdj c.humidity
      + rainAdj c.rain + visAdj c.visibility + windAdj c.wind_speed := by
    rw [rawScore_eq_spec]; unfold specRawScore; ring
  simp only [assess]
  rw [h]

/-- C3: under the spec's input ranges the score is an integer in [0, 100]
(the clamp guarantees it). -/
theorem assess_score_in_range (c : Current)
    (h1 : 0 ≤ c.clouds) (h2 : c.clouds ≤ 100)
    (h3 : 0 ≤ c.humidity) (h4 : c.humidity ≤ 100)
    (h5 : 0 ≤ c.wind_speed) (h6 : 0 ≤ c.visibility) (h7 : 0 ≤ c.rain) :
    0 ≤ (assess c).score ∧ (assess c).score ≤ 100 := by
  simp only [assess]
  exact ⟨le_max_left _ _, max_le (by norm_num) (min_le_left _ _)⟩

/-- Witness for C3 at the mock reading. -/
theorem assess_score_in_range_witness :
    0 ≤ (assess ⟨20, 65, 5, 10, 0⟩).score ∧ (assess ⟨20, 65, 5, 10, 0⟩).score ≤ 100 :=
  assess_score_in_range ⟨20, 65, 5, 10, 0⟩ (by norm_num) (by norm_num) (by norm_num)
    (by norm_num) (by norm_num) (by norm_num) (by norm_num)

/-- The spec's rating partition applied to the clamped score. -/
def ratingOfClamped (s : ℤ) : String :=
  if s ≥ 80 then "Excellent"
  else if s ≥ 65 then "Good"
  else if s ≥ 45 then "Fair"
  else "Poor"

/-- C4: the returned rating is the four-way threshold partition of the
clamped score; thresholding before or after clamping agrees because the raw
score stays within [-35, 105]. -/
theorem rating_clamp_agree (s : ℤ) (h1 : -35 ≤ s) (h2 : s ≤ 105) :
    (determineRating s).1 = ratingOfClamped (max 0 (min 100 s)) := by
  unfold determineRating ratingOfClamped
  rw [max_def, min_def]
  split_ifs <;> first | rfl | omega

theorem assess_rating_eq_threshold_of_clamped (c : Current) :
    (assess c).rating = ratingOfClamped ((assess c).score) := by
  have hb := rawScore_bounds c
  simp only [assess]
  exact rating_clamp_agree (rawScore c) hb.1 hb.2

/-- Increasing cloud cover never increases the cloud adjustment. -/
theorem cloudAdj_antitone {x y : ℚ} (h : x ≤ y) : cloudAdj y ≤ cloudAdj x := by
  unfold cloudAdj
  split_ifs <;> first | omega | (exfalso; linarith)

/-- C7: holding the other factors fixed, increasing cloud cover within
[0, 100] never increases the assessor's score. -/
theorem assess_score_antitone_in_clouds (x y hum w v r : ℚ)
    (h0 : 0 ≤ x) (hxy : x ≤ y) (h100 : y ≤ 100) :
    (assess ⟨y, hum, w, v, r⟩).score ≤ (assess ⟨x, hum, w, v, r⟩).score := by
  have hadj : cloudAdj y ≤ cloudAdj x := cloudAdj_antitone hxy
  have hraw : rawScore ⟨y, hum, w, v, r⟩ ≤ rawScore ⟨x, hum, w, v, r⟩ := by
    rw [rawScore_eq_spec, rawScore_eq_spec]
    unfold specRawScore
    simp only
    omega
  simp only [assess]
  exact max_le_max (le_refl 0) (min_le_min (le_refl 100) hraw)

/-- Witness for C7: cloud cover 30 versus 50, other factors as in the mock
reading. -/
theorem assess_score_antitone_in_clouds_witness :
    (assess ⟨50, 65, 5, 10, 0⟩).score ≤ (assess ⟨30, 65, 5, 10, 0⟩).score :=
  assess_score_antitone_in_clouds 30 50 65 5 10 0 (by norm_num) (by norm_num)
    (by norm_num)

/-- C10: the assessor is deterministic — two calls on the same reading
agree on every component of the output. -/
theorem assess_deterministic (a b : Current) (h : a = b) :
    (assess a).score = (assess b).score ∧ (assess a).rating = (assess b).rating ∧
    (assess a).emoji = (assess b).emoji ∧ (assess a).factors = (assess b).factors ∧
    (assess a).recommendation = (assess b).recommendation := by
  subst h; exact ⟨rfl, rfl, rfl, rfl, rfl⟩

/-- Witness for C10 at the mock reading. -/
theorem assess_deterministic_witness :
    (assess ⟨20, 65, 5, 10, 0⟩).score = (assess ⟨20, 65, 5, 10, 0⟩).score ∧
    (assess ⟨20, 65, 5, 10, 0⟩).rating = (assess ⟨20, 65, 5, 10, 0⟩).rating ∧
    (assess ⟨20, 65, 5, 10, 0⟩).emoji = (assess ⟨20, 65, 5, 10, 0⟩).emoji ∧
    (assess ⟨20, 65, 5, 10, 0⟩).factors = (assess ⟨20, 65, 5, 10, 0⟩).factors ∧
    (assess ⟨20, 65, 5, 10, 0⟩).recommendation
      = (assess ⟨20, 65, 5, 10, 0⟩).recommendation :=
  assess_deterministic ⟨20, 65, 5, 10, 0⟩ ⟨20, 65, 5, 10, 0⟩ rfl

/-- C5: the assessor is total — on every input dictionary (any subset of
fields may be absent) it takes the ok branch, and missing fields default to
clouds 50, humidity 60, wind 5, visibility 10, rain 0. -/
theorem assessment_total_with_defaults (w : WeatherData) :
    (∃ a, get_stargazing_weather_assessment w = Except.ok a) ∧
    (∀ d : CurrentDict,
      (readCurrent d).clouds = d.clouds.getD 50 ∧
      (readCurrent d).humidity = d.humidity.getD 60 ∧
      (readCurrent d).wind_speed = d.wind_speed.getD 5 ∧
      (readCurrent d).visibility = d.visibility.getD 10 ∧
      (readCurrent d).rain = d.rain.getD 0) ∧
    readCurrent emptyCurrentDict = ⟨50, 60, 5, 10, 0⟩ := by
  exact ⟨⟨_, rfl⟩, fun d => ⟨rfl, rfl, rfl, rfl, rfl⟩, rfl⟩

/-- C8: the mock fallback reading has exactly the documented field values,
its raw score is 105 (only the +5 wind bonus applies; clouds = 20 is not
> 20), and the assessment clamps it to 100 with rating "Excellent". -/
theorem mock_reading_fixed_point :
    mock_weather_current.temperature = 25 ∧
    mock_weather_current.humidity = 65 ∧
    mock_weather_current.clouds = 20 ∧
    mock_weather_current.visibility = 10 ∧
    mock_weather_current.wind_speed = 5 ∧
    mock_weather_current.rain = 0 ∧
    rawScore mock_weather_current.toCurrent = 105 ∧
    (assess mock_weather_current.toCurrent).score = 100 ∧
    (assess mock_weather_current.toCurrent).rating = "Excellent" := by
  refine ⟨rfl, rfl, rfl, rfl, rfl, rfl, ?_, ?_, ?_⟩ <;> decide

/-- C2: the selector always emits the Evening window (sunset to "23:00",
quality = overall label) first, emits the Late Night window (moonset to
"04:00", quality "Excellent" when cloud cover < 30, else the overall label)
exactly when moonset is non-empty and lexicographically below "02:00", and
emits nothing else. -/
theorem viewing_times_characterisation (sunset moonset : String) (cc : ℚ) :
    (¬(moonset ≠ "" ∧ moonset < "02:00") ∧
      get_best_viewing_times sunset moonset cc =
        [⟨"Evening", sunset, "23:00", viewingQuality cc, eveningDescr⟩]) ∨
    ((moonset ≠ "" ∧ moonset < "02:00") ∧
      get_best_viewing_times sunset moonset cc =
        [⟨"Evening", sunset, "23:00", viewingQuality cc, eveningDescr⟩,
         ⟨"Late Night", moonset, "04:00",
           if cc < 30 then "Excellent" else viewingQuality cc,
           lateNightDescr⟩]) := by
  by_cases h : moonset ≠ "" ∧ moonset < "02:00"
  · refine Or.inr ⟨h, ?_⟩
    simp only [get_best_viewing_times]
    rw [if_pos h]
    rfl
  · refine Or.inl ⟨h, ?_⟩
    simp only [get_best_viewing_times]
    rw [if_neg h]

/-- C9: the overall viewing-quality label is the cloud-only partition
(> 70 Poor, > 40 Fair, > 20 Good, else Excellent), depends on nothing but
cloud cover, and disagrees with the assessor's score-based rating on a
concrete reading (clouds 50: quality "Fair" but rating "Excellent"). -/
theorem viewing_quality_cloud_partition :
    (∀ c : Current, viewingQualityOf c =
      (if c.clouds > 70 then "Poor" else if c.clouds > 40 then "Fair"
        else if c.clouds > 20 then "Good" else "Excellent")) ∧
    (∀ c₁ c₂ : Current, c₁.clouds = c₂.clouds →
      viewingQualityOf c₁ = viewingQualityOf c₂) ∧
    (∃ c : Current, viewingQualityOf c ≠ (assess c).rating) := by
  refine ⟨fun c => rfl, fun c₁ c₂ h => ?_, ⟨⟨50, 60, 5, 10, 0⟩, by decide⟩⟩
  simp [viewingQualityOf, h]

/-- A built `(city, info, distance)` tuple has positions 0-2 only, so the
sort key `x[12]` misses. -/
theorem nearbyTuple_key_none (city : String) (i : CityInfo) (d : ℚ) :
    (nearbyTuple city i d).get? 12 = none := rfl

/-- C6: for every distance assignment and radius, `find_nearby_cities`
raises IndexError (the sort key indexes position 12 of a 3-tuple) exactly
when some city of the table lies within the radius, and returns the empty
list exactly when none does. -/
theorem find_nearby_cities_raises (dist : String → ℚ) (radius_km : ℚ) :
    (find_nearby_cities dist radius_km = Except.error "IndexError" ↔
      ∃ ci ∈ INDIAN_CITIES, dist ci.1 ≤ radius_km) ∧
    (find_nearby_cities dist radius_km = Except.ok [] ↔
      ∀ ci ∈ INDIAN_CITIES, ¬ dist ci.1 ≤ radius_km) := by
  have hiff : INDIAN_CITIES.filter (fun ci => dist ci.1 ≤ radius_km) = [] ↔
      ∀ ci ∈ INDIAN_CITIES, ¬ dist ci.1 ≤ radius_km := by
    simpa using List.filter_eq_nil_iff
      (p := fun ci : String × CityInfo => decide (dist ci.1 ≤ radius_km))
      (l := INDIAN_CITIES)
  by_cases hall : ∀ ci ∈ INDIAN_CITIES, ¬ dist ci.1 ≤ radius_km
  · have hnil : INDIAN_CITIES.filter (fun ci => dist ci.1 ≤ radius_km) = [] :=
      hiff.2 hall
    have hres : find_nearby_cities dist radius_km = Except.ok [] := by
      simp only [find_nearby_cities]
      rw [hnil]
      simp [pySortedByKey]
    constructor
    · rw [hres]
      exact ⟨fun h => absurd h (by simp), fun ⟨ci, hm, hd⟩ => (hall ci hm hd).elim⟩
    · rw [hres]
      exact ⟨fun _ => hall, fun _ => rfl⟩
  · have hne : INDIAN_CITIES.filter (fun ci => dist ci.1 ≤ radius_km) ≠ [] :=
      fun hnil => hall (hiff.1 hnil)
    obtain ⟨a, as, hF⟩ := List.exists_cons_of_ne_nil hne
    have ha : a ∈ INDIAN_CITIES.filter (fun ci => dist ci.1 ≤ radius_km) := by
      rw [hF]; exact List.mem_cons_self a as
    have hmem := List.mem_filter.1 ha
    have had : dist a.1 ≤ radius_km := by simpa using hmem.2
    have hres : find_nearby_cities dist radius_km = Except.error "IndexError" := by
      simp only [find_nearby_cities, pySortedByKey]
      rw [hF]
      rfl
    constructor
    · rw [hres]
      exact ⟨fun _ => ⟨a, hmem.1, had⟩, fun _ => rfl⟩
    · rw [hres]
      exact ⟨fun h => absurd h (by simp), fun h => (h a hmem.1 had).elim⟩

end Stargazing
